import Mathlib

/-!
Shallow embedding of the Technova voice backend (Python sources under `src/`):
the Edge-TTS synthesis breaker (`src/services/tts_service.py`), the Whisper
STT adapter (`src/services/stt_service.py`), the WebSocket protocol
dispatcher (`src/app.py`), the inbound-call routing service
(`src/services/inbound_service.py`) and the inbound-calls router
(`src/routers/inbound_calls.py`).  Effectful Python code is modelled by
explicit state passing plus an oracle argument describing what the external
collaborator (Edge TTS stream, Whisper model, remote Node backend, transport)
would do on that invocation; wall-clock durations and log lines are omitted.
-/

/-! ## TTS service (src/services/tts_service.py) -/

/-- `TTSService.max_failures` (tts_service.py line 44). -/
def max_failures : Nat := 3

/-- The mutable breaker state of `TTSService`: `self.use_edge_tts` and
`self.edge_tts_failures` (tts_service.py lines 41-43). -/
structure TTSState where
  use_edge_tts : Bool
  edge_tts_failures : Nat
deriving DecidableEq, Repr

/-- Breaker state set by `TTSService.__init__` (tts_service.py lines 41-44). -/
def ttsInit : TTSState := ⟨true, 0⟩

/-- What the Edge TTS adapter (`edge_tts.Communicate(...).stream()`) would do
if invoked: yield audio bytes, or raise an exception with message `msg`. -/
inductive EdgeOutcome where
  | ok (audio : List Nat)
  | exn (msg : String)

/-- The result dict returned by `text_to_speech_bytes`; the `duration`
wall-clock field is omitted (real time is not modelled). `audio_data`,
`format` and `error` are `none` when the Python dict lacks the key. -/
structure TTSResult where
  success : Bool
  audio_data : Option (List Nat)
  format : Option String
  error : Option String
  provider : String
deriving DecidableEq, Repr

/-- The error string of the failure dict (tts_service.py line 127). -/
def tts_unavailable_error (n : Nat) : String :=
  "TTS service unavailable. Edge TTS failures: " ++ toString n

/-- `TTSService.text_to_speech_bytes` (tts_service.py lines 49-130).
Given the current breaker state and the outcome the Edge TTS adapter would
have on this invocation, returns the result dict, the new breaker state, and
whether the underlying adapter was actually invoked.  The guard on line 72
(`self.use_edge_tts and self.edge_tts_failures < self.max_failures`) decides
whether the adapter is called; on success the failure counter resets to 0
(line 97); on an exception the counter increments and, once it reaches
`max_failures`, `use_edge_tts` is set to `False` (lines 111-122); every
non-success path falls through to the failure dict of lines 125-130. -/
def text_to_speech_bytes (s : TTSState) (o : EdgeOutcome) :
    TTSResult × TTSState × Bool :=
  if s.use_edge_tts = true ∧ s.edge_tts_failures < max_failures then
    match o with
    | .ok audio =>
        (⟨true, some audio, some "mp3", none, "edge_tts"⟩,
         { s with edge_tts_failures := 0 }, true)
    | .exn _ =>
        let failures := s.edge_tts_failures + 1
        let enabled := if max_failures ≤ failures then false else s.use_edge_tts
        (⟨false, none, none, some (tts_unavailable_error failures), "none"⟩,
         ⟨enabled, failures⟩, true)
  else
    (⟨false, none, none, some (tts_unavailable_error s.edge_tts_failures), "none"⟩,
     s, false)

/-- `TTSService.reset_edge_tts` (tts_service.py lines 229-233). -/
def reset_edge_tts (s : TTSState) : TTSState :=
  { s with edge_tts_failures := 0, use_edge_tts := true }

/-- The dict returned by `TTSService.health_check` (tts_service.py
lines 219-227); computed from the breaker fields alone. -/
structure TTSHealth where
  edge_tts_available : Bool
  fallback_available : Bool
  edge_tts_failures : Nat
  max_failures : Nat
  current_provider : String
deriving DecidableEq, Repr

/-- `TTSService.health_check` (tts_service.py lines 219-227). -/
def tts_health_check (s : TTSState) : TTSHealth :=
  ⟨s.use_edge_tts && decide (s.edge_tts_failures < max_failures),
   false, s.edge_tts_failures, max_failures,
   if s.use_edge_tts then "edge_tts" else "none"⟩

/-- An externally triggered transition of the breaker state: one
`text_to_speech_bytes` invocation (with the adapter outcome it would see) or
one `reset_edge_tts` call. -/
inductive TTSEvent where
  | call (o : EdgeOutcome)
  | reset

/-- State transition of one event. -/
def ttsStep (s : TTSState) : TTSEvent → TTSState
  | .call o => (text_to_speech_bytes s o).2.1
  | .reset => reset_edge_tts s

/-- Breaker state after a sequence of events starting from a fresh service. -/
def ttsRun (evs : List TTSEvent) : TTSState :=
  evs.foldl ttsStep ttsInit

/-- A breaker state produced by some sequence of calls and resets. -/
def TTSReachable (s : TTSState) : Prop :=
  ∃ evs, ttsRun evs = s

/-- State of the breaker after three consecutive failing invocations from a
fresh service. -/
def trippedState (m₁ m₂ m₃ : String) : TTSState :=
  ttsStep (ttsStep (ttsStep ttsInit (.call (.exn m₁))) (.call (.exn m₂)))
    (.call (.exn m₃))

theorem trippedState_eq (m₁ m₂ m₃ : String) :
    trippedState m₁ m₂ m₃ = ⟨false, 3⟩ := rfl

theorem step_fixed_of_tripped (s : TTSState) (o : EdgeOutcome)
    (h : s.use_edge_tts = false) :
    text_to_speech_bytes s o =
      (⟨false, none, none, some (tts_unavailable_error s.edge_tts_failures),
        "none"⟩, s, false) := by
  unfold text_to_speech_bytes
  rw [if_neg]
  intro hc
  rw [h] at hc
  exact Bool.false_ne_true hc.1

/-- C1: after exactly 3 consecutive failing invocations from a fresh service
the breaker is tripped (`use_edge_tts = false`, counter at the threshold),
every subsequent invocation returns a failure result without calling the
underlying Edge TTS adapter and leaves the state unchanged (so any number of
further invocations stays tripped); and from any run of fewer than 3
consecutive failures, one successful invocation succeeds and resets the
failure counter to 0. -/
theorem tts_breaker_trips_after_three (m₁ m₂ m₃ : String) :
    (trippedState m₁ m₂ m₃).use_edge_tts = false ∧
    (trippedState m₁ m₂ m₃).edge_tts_failures = max_failures ∧
    (∀ o : EdgeOutcome,
      (text_to_speech_bytes (trippedState m₁ m₂ m₃) o).1.success = false ∧
      (text_to_speech_bytes (trippedState m₁ m₂ m₃) o).2.2 = false ∧
      (text_to_speech_bytes (trippedState m₁ m₂ m₃) o).2.1 = trippedState m₁ m₂ m₃) ∧
    (∀ os : List EdgeOutcome,
      os.foldl (fun s o => (text_to_speech_bytes s o).2.1) (trippedState m₁ m₂ m₃) =
        trippedState m₁ m₂ m₃) ∧
    (∀ k, k < max_failures → ∀ (m : String) (audio : List Nat),
      (text_to_speech_bytes (ttsRun (List.replicate k (.call (.exn m)))) (.ok audio)).1.success
          = true ∧
      (text_to_speech_bytes (ttsRun (List.replicate k (.call (.exn m)))) (.ok audio)).2.1.edge_tts_failures
          = 0) := by
  refine ⟨rfl, rfl, ?_, ?_, ?_⟩
  · intro o
    rw [trippedState_eq, step_fixed_of_tripped ⟨false, 3⟩ o rfl]
    exact ⟨rfl, rfl, rfl⟩
  · intro os
    induction os with
    | nil => rfl
    | cons o os ih =>
        rw [List.foldl_cons, trippedState_eq, step_fixed_of_tripped ⟨false, 3⟩ o rfl]
        rw [trippedState_eq] at ih
        exact ih
  · intro k hk m audio
    have hm : max_failures = 3 := rfl
    rw [hm] at hk
    interval_cases k
    · exact ⟨rfl, rfl⟩
    · exact ⟨rfl, rfl⟩
    · exact ⟨rfl, rfl⟩

theorem tts_breaker_trips_after_three_witness :
    (0 < max_failures) ∧
    (text_to_speech_bytes (ttsRun (List.replicate 0 (.call (.exn "err")))) (.ok [1])).1.success
        = true :=
  ⟨by decide,
   ((tts_breaker_trips_after_three "a" "b" "c").2.2.2.2 0 (by decide) "err" [1]).1⟩

/-- The breaker invariant: the breaker is disabled exactly when the counter
has reached the threshold. -/
def ttsInv (s : TTSState) : Prop :=
  s.use_edge_tts = false ↔ max_failures ≤ s.edge_tts_failures

theorem ttsInv_step (s : TTSState) (e : TTSEvent) (h : ttsInv s) :
    ttsInv (ttsStep s e) := by
  cases e with
  | reset =>
      simp only [ttsStep, reset_edge_tts, ttsInv]
      constructor
      · intro hc; exact absurd hc (by decide)
      · intro hc; exact absurd hc (by decide)
  | call o =>
      simp only [ttsStep, text_to_speech_bytes]
      split
      · rename_i hguard
        cases o with
        | ok audio =>
            simp only [ttsInv] at *
            constructor
            · intro hc
              rw [hguard.1] at hc
              exact absurd hc (by decide)
            · intro hc
              exact absurd hc (by omega)
        | exn m =>
            simp only [ttsInv] at *
            constructor
            · intro hc
              by_cases hle : max_failures ≤ s.edge_tts_failures + 1
              · exact hle
              · rw [if_neg hle, hguard.1] at hc
                exact absurd hc (by decide)
            · intro hc
              rw [if_pos hc]
      · exact h

theorem ttsInv_run (evs : List TTSEvent) (s : TTSState) (h : ttsInv s) :
    ttsInv (evs.foldl ttsStep s) := by
  induction evs generalizing s with
  | nil => exact h
  | cons e evs ih => exact ih (ttsStep s e) (ttsInv_step s e h)

/-- C2: over every reachable breaker state, `use_edge_tts` is `false` exactly
when the consecutive failure counter is at least the threshold; any
successful invocation resets the counter to 0 and leaves the breaker
enabled; once `use_edge_tts` is `false`, every invocation returns the fixed
"unavailable" failure without calling the adapter and without changing state
(so it stays short-circuited until `reset_edge_tts`); and `reset_edge_tts`
unconditionally sets the counter to 0 and re-enables the breaker. -/
theorem tts_breaker_invariant :
    (∀ s, TTSReachable s →
        (s.use_edge_tts = false ↔ max_failures ≤ s.edge_tts_failures)) ∧
    (∀ (s : TTSState) (o : EdgeOutcome),
        (text_to_speech_bytes s o).1.success = true →
        (text_to_speech_bytes s o).2.1.edge_tts_failures = 0 ∧
        (text_to_speech_bytes s o).2.1.use_edge_tts = true) ∧
    (∀ (s : TTSState) (o : EdgeOutcome), s.use_edge_tts = false →
        text_to_speech_bytes s o =
          (⟨false, none, none, some (tts_unavailable_error s.edge_tts_failures),
            "none"⟩, s, false)) ∧
    (∀ s : TTSState, reset_edge_tts s = ⟨true, 0⟩) := by
  refine ⟨?_, ?_, step_fixed_of_tripped, fun s => rfl⟩
  · rintro s ⟨evs, rfl⟩
    exact ttsInv_run evs ttsInit (by simp [ttsInv, ttsInit]; decide)
  · intro s o hsucc
    unfold text_to_speech_bytes at *
    split at hsucc
    · rename_i hguard
      cases o with
      | ok audio =>
          rw [if_pos hguard]
          exact ⟨rfl, hguard.1⟩
      | exn m => exact absurd hsucc (by simp)
    · exact absurd hsucc (by simp)

theorem tts_breaker_invariant_witness :
    ((⟨false, 3⟩ : TTSState).use_edge_tts = false ↔
      max_failures ≤ (⟨false, 3⟩ : TTSState).edge_tts_failures) ∧
    ((text_to_speech_bytes ⟨true, 0⟩ (.ok [7])).2.1.edge_tts_failures = 0 ∧
      (text_to_speech_bytes ⟨true, 0⟩ (.ok [7])).2.1.use_edge_tts = true) :=
  ⟨tts_breaker_invariant.1 ⟨false, 3⟩
      ⟨[.call (.exn "a"), .call (.exn "b"), .call (.exn "c")], rfl⟩,
   tts_breaker_invariant.2.1 ⟨true, 0⟩ (.ok [7]) rfl⟩

/-! ## WebSocket protocol dispatcher (src/app.py, websocket_endpoint) -/

/-- The result envelope produced by `pipeline.process_audio` /
`pipeline.process_text`, as accessed by `websocket_endpoint` in app.py
(keys `success`, `transcription`, `ai_response`, `audio_data`,
`audio_format`, and optional `error`). -/
structure PipelineResult where
  success : Bool
  transcription : String
  ai_response : String
  audio_data : String
  audio_format : String
  error : Option String
deriving DecidableEq, Repr

/-- An inbound WebSocket message, dispatched on its `type` field
(app.py lines 231-305). -/
inductive InMsg where
  | audio_chunk (audio : String)
  | text_message (text : String)
  | reset
  | ping
  | end_call
  | other (t : String)

/-- An outbound WebSocket message, as built by `websocket_endpoint`.
`ai_response` has optional `audio`/`format` fields: the `audio_chunk`
branch sends it without them (app.py lines 253-257), the `text_message`
branch sends it with them (lines 280-286). -/
inductive OutMsg where
  | transcription (text call_id : String)
  | ai_response (text : String) (audio format : Option String) (call_id : String)
  | audio_response (audio format call_id : String)
  | error (err call_id : String)
  | reset_complete (call_id : String)
  | pong (timestamp : String)
deriving DecidableEq, Repr

/-- An observable action of the session loop: registry connect/disconnect,
an outbound send via the connection manager, or an orchestrator
conversation reset. -/
inductive SessionAction where
  | connect (call_id : String)
  | send (call_id : String) (m : OutMsg)
  | reset_conversation (call_id : String)
  | disconnect (call_id : String)
deriving DecidableEq, Repr

/-- The body of one iteration of the `while True` receive loop of
`websocket_endpoint` (app.py lines 235-305): given the inbound message and
the pipeline results that `process_audio` / `process_text` would return on
this iteration, produce the emitted actions and whether the loop continues
(`end_call` breaks it, line 305). The `text_message` branch has no failure
arm in the source: when `result["success"]` is falsy nothing is sent. -/
def handleMessage (call_id now : String) (m : InMsg)
    (procAudio procText : PipelineResult) : List SessionAction × Bool :=
  match m with
  | .audio_chunk _ =>
      let result := procAudio
      if result.success then
        ([.send call_id (.transcription result.transcription call_id),
          .send call_id (.ai_response result.ai_response none none call_id),
          .send call_id (.audio_response result.audio_data result.audio_format call_id)],
         true)
      else
        ([.send call_id (.error (result.error.getD "Unknown error") call_id)], true)
  | .text_message _ =>
      let result := procText
      if result.success then
        ([.send call_id
            (.ai_response result.ai_response (some result.audio_data)
              (some result.audio_format) call_id)], true)
      else
        ([], true)
  | .reset =>
      ([.reset_conversation call_id, .send call_id (.reset_complete call_id)], true)
  | .ping => ([.send call_id (.pong now)], true)
  | .end_call => ([], false)
  | .other _ => ([], true)

/-- One reason the receive loop makes progress: a message is received and
handled (with the pipeline results it sees), the transport disconnects
(`WebSocketDisconnect` at app.py line 307), or some other exception is
raised during the iteration (caught at line 309). -/
inductive LoopEvent where
  | msg (m : InMsg) (procAudio procText : PipelineResult)
  | disconnect
  | exn (e : String)

/-- The outbound messages among a list of actions. -/
def sends (acts : List SessionAction) : List OutMsg :=
  acts.filterMap fun a =>
    match a with
    | .send _ m => some m
    | _ => none

/-- The `try`/`except`/`finally` receive loop of `websocket_endpoint`
(app.py lines 227-313), run over a schedule of loop events.  Returns the
emitted actions and whether the loop has terminated; on every termination
(client `end_call`, transport disconnect, or any other exception) the
`finally` clause runs `manager.disconnect(call_id)` then
`pipeline.reset_conversation(call_id)` (lines 311-313).  An empty schedule
means the loop is still blocked awaiting the next message. -/
def sessionLoop (call_id now : String) : List LoopEvent → List SessionAction × Bool
  | [] => ([], false)
  | .disconnect :: _ =>
      ([.disconnect call_id, .reset_conversation call_id], true)
  | .exn _ :: _ =>
      ([.disconnect call_id, .reset_conversation call_id], true)
  | .msg m pa pt :: rest =>
      let hm := handleMessage call_id now m pa pt
      if hm.2 then
        (hm.1 ++ (sessionLoop call_id now rest).1, (sessionLoop call_id now rest).2)
      else
        (hm.1 ++ [.disconnect call_id, .reset_conversation call_id], true)

/-- `websocket_endpoint` (app.py lines 218-313): registry connect, then the
receive loop. -/
def websocket_endpoint (call_id now : String) (evs : List LoopEvent) :
    List SessionAction × Bool :=
  ((SessionAction.connect call_id) :: (sessionLoop call_id now evs).1,
   (sessionLoop call_id now evs).2)

/-- C3 counterexample: a `text_message` whose `process_text` result has
`success = false` produces no outbound message at all — in particular no
`error` message, contradicting the claim. -/
theorem text_message_failure_silent_cex :
    sends (handleMessage "c1" "now" (InMsg.text_message "hi")
        ⟨true, "", "", "", "", none⟩
        ⟨false, "", "", "", "", some "pipeline failed"⟩).1 = [] := rfl

/-- C3 (amended): for every inbound `text_message`, if `process_text`
returns `success = true` exactly one outbound `ai_response` message carrying
the reply text and audio is sent; if it returns `success = false`, no
outbound message is sent (the failure is silently dropped). -/
theorem text_message_dispatch (call_id now text : String)
    (pa pt : PipelineResult) :
    (pt.success = true →
      sends (handleMessage call_id now (.text_message text) pa pt).1 =
        [.ai_response pt.ai_response (some pt.audio_data) (some pt.audio_format)
          call_id]) ∧
    (pt.success = false →
      sends (handleMessage call_id now (.text_message text) pa pt).1 = []) := by
  constructor
  · intro hs
    simp [handleMessage, hs, sends]
  · intro hs
    simp [handleMessage, hs, sends]

theorem text_message_dispatch_witness :
    sends (handleMessage "c1" "now" (.text_message "hi")
        ⟨true, "", "", "", "", none⟩
        ⟨true, "t", "reply", "abcd", "mp3", none⟩).1 =
      [.ai_response "reply" (some "abcd") (some "mp3") "c1"] :=
  (text_message_dispatch "c1" "now" "hi" ⟨true, "", "", "", "", none⟩
      ⟨true, "t", "reply", "abcd", "mp3", none⟩).1 rfl

/-- C4: for every inbound `audio_chunk`, if `process_audio` returns
`success = true` exactly the three messages `transcription`, `ai_response`,
`audio_response` are sent in that order; if it returns `success = false` a
single `error` message is sent; and the actions of the current iteration
precede everything the loop does for later inbound messages. -/
theorem audio_chunk_dispatch (call_id now audio : String)
    (pa pt : PipelineResult) (rest : List LoopEvent) :
    (pa.success = true →
      sends (handleMessage call_id now (.audio_chunk audio) pa pt).1 =
        [.transcription pa.transcription call_id,
         .ai_response pa.ai_response none none call_id,
         .audio_response pa.audio_data pa.audio_format call_id]) ∧
    (pa.success = false →
      sends (handleMessage call_id now (.audio_chunk audio) pa pt).1 =
        [.error (pa.error.getD "Unknown error") call_id]) ∧
    (sessionLoop call_id now (.msg (.audio_chunk audio) pa pt :: rest)).1 =
      (handleMessage call_id now (.audio_chunk audio) pa pt).1 ++
        (sessionLoop call_id now rest).1 := by
  refine ⟨?_, ?_, ?_⟩
  · intro hs
    simp [handleMessage, hs, sends]
  · intro hs
    simp [handleMessage, hs, sends]
  · cases hs : pa.success <;> simp [sessionLoop, handleMessage, hs]

theorem audio_chunk_dispatch_witness :
    sends (handleMessage "c1" "now" (.audio_chunk "00ff")
        ⟨true, "hello", "hi there", "aabb", "mp3", none⟩
        ⟨true, "", "", "", "", none⟩).1 =
      [.transcription "hello" "c1",
       .ai_response "hi there" none none "c1",
       .audio_response "aabb" "mp3" "c1"] :=
  (audio_chunk_dispatch "c1" "now" "00ff"
      ⟨true, "hello", "hi there", "aabb", "mp3", none⟩
      ⟨true, "", "", "", "", none⟩ []).1 rfl

/-- C5: whenever the receive loop terminates — by `end_call`, by transport
disconnect, or by any other exception — the trailing actions are the
registry `disconnect` followed by the orchestrator `reset_conversation`
for that call id: cleanup runs on every exit path. -/
theorem ws_cleanup_on_every_exit (call_id now : String) (evs : List LoopEvent)
    (h : (websocket_endpoint call_id now evs).2 = true) :
    ∃ l, (websocket_endpoint call_id now evs).1 =
      l ++ [SessionAction.disconnect call_id, SessionAction.reset_conversation call_id] := by
  have hloop : ∀ evs : List LoopEvent, (sessionLoop call_id now evs).2 = true →
      ∃ l, (sessionLoop call_id now evs).1 =
        l ++ [SessionAction.disconnect call_id, SessionAction.reset_conversation call_id] := by
    intro evs
    induction evs with
    | nil => intro hc; exact absurd hc (by simp [sessionLoop])
    | cons e rest ih =>
        intro hterm
        cases e with
        | disconnect => exact ⟨[], rfl⟩
        | exn msg => exact ⟨[], rfl⟩
        | msg m pa pt =>
            by_cases hc : (handleMessage call_id now m pa pt).2
            · simp only [sessionLoop, if_pos hc] at hterm ⊢
              obtain ⟨l, hl⟩ := ih hterm
              exact ⟨(handleMessage call_id now m pa pt).1 ++ l,
                by rw [hl, List.append_assoc]⟩
            · simp only [sessionLoop, if_neg hc]
              exact ⟨(handleMessage call_id now m pa pt).1, rfl⟩
  obtain ⟨l, hl⟩ := hloop evs h
  exact ⟨SessionAction.connect call_id :: l, by simp [websocket_endpoint, hl]⟩

theorem ws_cleanup_on_every_exit_witness :
    ∃ l, (websocket_endpoint "c1" "now"
        [.msg .end_call ⟨true, "", "", "", "", none⟩ ⟨true, "", "", "", "", none⟩]).1 =
      l ++ [SessionAction.disconnect "c1", SessionAction.reset_conversation "c1"] :=
  ws_cleanup_on_every_exit "c1" "now"
    [.msg .end_call ⟨true, "", "", "", "", none⟩ ⟨true, "", "", "", "", none⟩] rfl

/-! ## STT service (src/services/stt_service.py) -/

/-- The result dict returned by `STTService.transcribe_audio`; the
`duration` wall-clock field is omitted.  On success the dict has keys
`success`, `text`, `language`, `confidence` (no `error`); on failure it has
`success`, `text`, `language`, `error` (no `confidence`); absent keys are
`none`. -/
structure STTResult where
  success : Bool
  text : String
  language : String
  error : Option String
  confidence : Option Rat
deriving DecidableEq, Repr

/-- What the body of the `try` block of `transcribe_audio` (stt_service.py
lines 131-160) would do if reached: `sf.read` raises on unreadable/empty
audio, `_preprocess_audio` raises `STTException`, `model.transcribe` raises,
or transcription succeeds with a text, an optional detected language and an
optional language probability. -/
inductive WhisperOutcome where
  | readFail (msg : String)
  | preprocessFail (msg : String)
  | transcribeFail (msg : String)
  | ok (text : String) (language : Option String) (language_probability : Option Rat)

/-- Python `language or default`: an empty or absent language hint falls back
to the configured default (stt_service.py line 140). -/
def pyOr (o : Option String) (d : String) : String :=
  match o with
  | none => d
  | some s => if s = "" then d else s

/-- `STTService._calculate_confidence` (stt_service.py lines 202-211):
the result's `language_probability` when present, else 0.95. -/
def calculate_confidence (language_probability : Option Rat) : Rat :=
  language_probability.getD (95 / 100)

/-- `STTService.transcribe_audio` (stt_service.py lines 69-170).  Every
exception a collaborator can raise inside the `try` block is a
`WhisperOutcome` constructor, and every path — the four guard early returns
of lines 87-129, the success return of lines 154-160, and the
`except Exception` return of lines 162-170 — produces a result dict, so the
embedded function is total: the Python method never raises to its caller.
The `_preprocess_audio` `STTException` message is prefixed as on
stt_service.py line 200 before the generic handler stringifies it. -/
def transcribe_audio (whisper_available numpy_available soundfile_available
    model_loaded : Bool) (language : Option String) (default_language : String)
    (outcome : WhisperOutcome) : STTResult :=
  if whisper_available = false then
    ⟨false, "", "", some "Whisper STT service not available - module not installed", none⟩
  else if numpy_available = false then
    ⟨false, "", "", some "NumPy module not available - STT service disabled", none⟩
  else if soundfile_available = false then
    ⟨false, "", "", some "SoundFile module not available - STT service disabled", none⟩
  else if model_loaded = false then
    ⟨false, "", "", some "Whisper model not loaded - STT service disabled", none⟩
  else
    match outcome with
    | .readFail m => ⟨false, "", "", some m, none⟩
    | .preprocessFail m =>
        ⟨false, "", "", some ("Audio preprocessing failed: " ++ m), none⟩
    | .transcribeFail m => ⟨false, "", "", some m, none⟩
    | .ok t lang p =>
        ⟨true, t.trim, lang.getD (pyOr language default_language), none,
         some (calculate_confidence p)⟩

/-- `STTService.health_check` (stt_service.py lines 223-228). -/
def stt_health_check (whisper_available numpy_available soundfile_available
    model_loaded : Bool) : Bool :=
  whisper_available && numpy_available && soundfile_available && model_loaded

/-- C6: `transcribe_audio` is total over every modelled input — including
missing optional modules, an unloaded model, and every exception its
collaborators can raise on unreadable audio — always returning a result with
the success flag set; whenever `success` is `false` the `error` field is
populated, and on success it is absent. -/
theorem transcribe_audio_never_raises (w n s m : Bool) (language : Option String)
    (default_language : String) (outcome : WhisperOutcome) :
    ((transcribe_audio w n s m language default_language outcome).success = false →
      ((transcribe_audio w n s m language default_language outcome).error).isSome = true) ∧
    ((transcribe_audio w n s m language default_language outcome).success = true →
      (transcribe_audio w n s m language default_language outcome).error = none) := by
  cases w <;> cases n <;> cases s <;> cases m <;> cases outcome <;>
    simp [transcribe_audio]

theorem transcribe_audio_never_raises_witness :
    (transcribe_audio true true true true none "en" (.readFail "empty audio")).success
        = false ∧
    ((transcribe_audio true true true true none "en" (.readFail "empty audio")).error).isSome
        = true :=
  ⟨rfl,
   (transcribe_audio_never_raises true true true true none "en"
      (.readFail "empty audio")).1 rfl⟩

/-! ## STT singleton construction (src/services/stt_service.py, __new__) -/

/-- The class-level state of `STTService`: whether `cls._instance` is set,
how many distinct instance objects were ever allocated (ghost observation for
the singleton property), whether `cls._model` is loaded, and how many times
`_load_model` has executed (ghost counter). -/
structure STTClass where
  has_instance : Bool
  objects_created : Nat
  model_loaded : Bool
  load_count : Nat
deriving DecidableEq, Repr

/-- Fresh class state: `_instance = None`, `_model = None`
(stt_service.py lines 38-39). -/
def sttClassInit : STTClass := ⟨false, 0, false, 0⟩

/-- What `whisper.load_model` would do if attempted: succeed, or raise. -/
inductive LoadAttempt where
  | ok
  | fail (msg : String)

/-- `STTService.__new__` (stt_service.py lines 41-45): allocates a new object
only when `cls._instance is None`, and always hands back `cls._instance`. -/
def stt_new (s : STTClass) : STTClass :=
  if s.has_instance then s
  else { s with has_instance := true, objects_created := s.objects_created + 1 }


/-- `STTService._load_model` (stt_service.py lines 51-67): when the whisper
module is missing it sets `_model = None` and returns; otherwise it loads the
model, raising `STTException` (second component `true`) when loading fails.
The ghost `load_count` counts executions. -/
def stt_load_model (whisper_available : Bool) (a : LoadAttempt) (s : STTClass) :
    STTClass × Bool :=
  if whisper_available = false then
    ({ s with load_count := s.load_count + 1 }, false)
  else
    match a with
    | .ok => ({ s with load_count := s.load_count + 1, model_loaded := true }, false)
    | .fail _ => ({ s with load_count := s.load_count + 1 }, true)

/-- One evaluation of `STTService()`: `__new__` then `__init__`
(stt_service.py lines 41-49); `__init__` calls `_load_model` whenever
`self._model is None`.  The second component records whether the
construction raised. -/
def stt_construct (whisper_available : Bool) (a : LoadAttempt) (s : STTClass) :
    STTClass × Bool :=
  if (stt_new s).model_loaded then (stt_new s, false)
  else stt_load_model whisper_available a (stt_new s)

/-- Class state after a sequence of `STTService()` constructions. -/
def stt_construct_run (whisper_available : Bool) :
    List LoadAttempt → STTClass → STTClass
  | [], s => s
  | a :: rest, s =>
      stt_construct_run whisper_available rest (stt_construct whisper_available a s).1

/-- C10 counterexample: with the whisper module unavailable, two
constructions `STTService(); STTService()` execute `_load_model` twice
(`__init__` re-enters it because `_model` is still `None`), refuting "the
model load is executed at most once across all constructions"; the singleton
half survives: only one instance object is ever allocated. -/
theorem stt_load_model_twice_cex :
    (stt_construct_run false [.ok, .ok] sttClassInit).load_count = 2 ∧
    ¬ (stt_construct_run false [.ok, .ok] sttClassInit).load_count ≤ 1 ∧
    (stt_construct_run false [.ok, .ok] sttClassInit).objects_created = 1 := by
  decide

theorem stt_new_model_loaded (s : STTClass) :
    (stt_new s).model_loaded = s.model_loaded := by
  unfold stt_new
  split <;> rfl

theorem stt_new_of_has_instance (s : STTClass) (h : s.has_instance = true) :
    stt_new s = s := by
  unfold stt_new
  rw [if_pos h]

theorem stt_construct_fixed_of_loaded (whisper_available : Bool)
    (a : LoadAttempt) (s : STTClass) (h : s.model_loaded = true) :
    stt_construct whisper_available a s = (stt_new s, false) := by
  unfold stt_construct
  rw [stt_new_model_loaded, h]
  rfl

theorem stt_construct_preserves (whisper_available : Bool) (a : LoadAttempt)
    (s : STTClass) :
    (stt_construct whisper_available a s).1.has_instance = (stt_new s).has_instance ∧
    (stt_construct whisper_available a s).1.objects_created = (stt_new s).objects_created := by
  unfold stt_construct stt_load_model
  split
  · exact ⟨rfl, rfl⟩
  · split
    · exact ⟨rfl, rfl⟩
    · cases a
      · exact ⟨rfl, rfl⟩
      · exact ⟨rfl, rfl⟩

/-- C10 (amended): every construction `STTService()` returns the same
instance object (at most one object is ever allocated, whatever the load
outcomes), and the Whisper model load executes at most once across all
constructions provided the whisper module is available and loading succeeds;
once the model is loaded no construction runs `_load_model` again.  (When the
module is missing or loading raises, the load is re-attempted on each
construction, as the counterexample shows.) -/
theorem stt_singleton_load_once (attempts : List LoadAttempt)
    (whisper_available : Bool) :
    (stt_construct_run whisper_available attempts sttClassInit).objects_created ≤ 1 ∧
    ((whisper_available = true ∧ ∀ a ∈ attempts, a = LoadAttempt.ok) →
      (stt_construct_run whisper_available attempts sttClassInit).load_count ≤ 1) ∧
    (∀ (a : LoadAttempt) (s : STTClass), s.model_loaded = true →
      (stt_construct whisper_available a s).1.load_count = s.load_count) := by
  refine ⟨?_, ?_, ?_⟩
  · have key : ∀ (l : List LoadAttempt) (s : STTClass),
        s.has_instance = true → s.objects_created ≤ 1 →
        (stt_construct_run whisper_available l s).objects_created ≤ 1 := by
      intro l
      induction l with
      | nil => intro s _ h2; exact h2
      | cons a rest ih =>
          intro s h1 h2
          have hp := stt_construct_preserves whisper_available a s
          have hnew := stt_new_of_has_instance s h1
          exact ih (stt_construct whisper_available a s).1
            (by rw [hp.1, hnew]; exact h1) (by rw [hp.2, hnew]; exact h2)
    cases attempts with
    | nil => exact Nat.zero_le 1
    | cons a rest =>
        have hp := stt_construct_preserves whisper_available a sttClassInit
        exact key rest (stt_construct whisper_available a sttClassInit).1
          (by rw [hp.1]; rfl) (by rw [hp.2]; exact Nat.le_of_eq rfl)
  · rintro ⟨hw, hall⟩
    subst hw
    cases attempts with
    | nil => exact Nat.zero_le 1
    | cons a rest =>
        have ha : a = LoadAttempt.ok := hall a (List.mem_cons_self a rest)
        subst ha
        have h1 : (stt_construct true .ok sttClassInit).1 = ⟨true, 1, true, 1⟩ := by
          decide
        have fixed : ∀ (l : List LoadAttempt),
            stt_construct_run true l ⟨true, 1, true, 1⟩ = ⟨true, 1, true, 1⟩ := by
          intro l
          induction l with
          | nil => rfl
          | cons b rest2 ihb =>
              have hb : stt_construct true b (⟨true, 1, true, 1⟩ : STTClass) =
                  ((⟨true, 1, true, 1⟩ : STTClass), false) := by
                rw [stt_construct_fixed_of_loaded true b ⟨true, 1, true, 1⟩ rfl,
                  stt_new_of_has_instance ⟨true, 1, true, 1⟩ rfl]
              show stt_construct_run true rest2 (stt_construct true b ⟨true, 1, true, 1⟩).1
                  = ⟨true, 1, true, 1⟩
              rw [hb]
              exact ihb
        show (stt_construct_run true rest (stt_construct true .ok sttClassInit).1).load_count ≤ 1
        rw [h1, fixed rest]
  · intro a s h
    rw [stt_construct_fixed_of_loaded whisper_available a s h]
    unfold stt_new
    split <;> rfl

theorem stt_singleton_load_once_witness :
    (stt_construct_run true [.ok, .ok] sttClassInit).load_count ≤ 1 :=
  (stt_singleton_load_once [.ok, .ok] true).2.1
    ⟨rfl, by intro a ha; fin_cases ha <;> rfl⟩

/-! ## Inbound call service (src/services/inbound_service.py) -/

/-- The Twilio call payload as accessed by `process_inbound_call` and
`_fallback_routing` (`call_data.get("CallSid")`, `call_data.get("From")`);
`none` models an absent key. -/
structure CallData where
  CallSid : Option String
  From : Option String
deriving DecidableEq, Repr

/-- Python f-string interpolation of a `dict.get` result: an absent key
renders as the string "None". -/
def pyStr (o : Option String) : String := o.getD "None"

/-- `InboundService.node_backend_url` (inbound_service.py line 18). -/
def node_backend_url : String :=
  "https://technova-hub-voice-backend-node-hxg7.onrender.com"

/-- The fixed total timeout, in seconds, that `InboundService.initialize`
puts on the HTTP session carrying every remote request
(`aiohttp.ClientTimeout(total=30)`, inbound_service.py line 24). -/
def session_timeout_total : Nat := 30

/-- What the POST to the Node backend `/webhook/incoming` would do:
deliver a response with a status code and body text, or raise (connection
error, timeout, ...). -/
inductive HttpOutcome where
  | response (status : Nat) (body : String)
  | exn (msg : String)

/-- The routing dict returned by `process_inbound_call`. -/
structure InboundResult where
  success : Bool
  twiml : String
  routing : String
deriving DecidableEq, Repr

/-- The TwiML built by `InboundService._fallback_routing`
(inbound_service.py lines 83-89); note the `replace` of "http://" leaves the
https URL unchanged. -/
def fallback_twiml (call_data : CallData) : String :=
  "<?xml version=\"1.0\" encoding=\"UTF-8\"?>\n<Response>\n    <Say voice=\"alice\" language=\"en-US\">Connecting you to our AI assistant.</Say>\n    <Connect>\n        <Stream url=\"wss://"
    ++ (node_backend_url.replace "http://" "ws://") ++ "/media/"
    ++ pyStr call_data.CallSid
    ++ "\" track=\"both_tracks\"/>\n    </Connect>\n</Response>"

/-- `InboundService._fallback_routing` (inbound_service.py lines 69-97). -/
def fallback_routing (call_data : CallData) : InboundResult :=
  ⟨true, fallback_twiml call_data, "fallback_ai"⟩

/-- `InboundService.process_inbound_call` (inbound_service.py lines 34-67):
a 200 response routes via the Node backend; any non-200 status falls back;
any exception (connection failure, timeout) is caught and falls back. -/
def process_inbound_call (call_data : CallData) (o : HttpOutcome) :
    InboundResult :=
  match o with
  | .response status body =>
      if status = 200 then ⟨true, body, "nodejs_backend"⟩
      else fallback_routing call_data
  | .exn _ => fallback_routing call_data

/-- The remote request did not come back with HTTP 200: it failed, timed
out, or returned a non-200 status. -/
def remote_failed : HttpOutcome → Prop
  | .response status _ => status ≠ 200
  | .exn _ => True

/-- C7 counterexample: the remote request's fixed timeout is the session's
30-second total, not the approximately-5-second short timeout the claim
describes. -/
theorem inbound_timeout_is_30s_cex :
    session_timeout_total = 30 ∧ session_timeout_total ≠ 5 := by
  decide

/-- C7 (amended): whenever the remote Node backend request fails, times out,
or returns a non-200 status, `process_inbound_call` returns the synthetic
fallback routing response — `success = true` with generated TwiML, never an
exception or fatal error — and the request carries the session's fixed
timeout of 30 seconds (not ~5 s). -/
theorem inbound_fallback_on_remote_failure (call_data : CallData)
    (o : HttpOutcome) (h : remote_failed o) :
    process_inbound_call call_data o = fallback_routing call_data ∧
    (process_inbound_call call_data o).success = true ∧
    (process_inbound_call call_data o).twiml = fallback_twiml call_data ∧
    session_timeout_total = 30 := by
  have heq : process_inbound_call call_data o = fallback_routing call_data := by
    cases o with
    | response status body =>
        have h' : status ≠ 200 := h
        simp only [process_inbound_call]
        rw [if_neg h']
    | exn msg => rfl
  exact ⟨heq, by rw [heq]; rfl, by rw [heq]; rfl, rfl⟩

theorem inbound_fallback_on_remote_failure_witness :
    process_inbound_call ⟨some "CA123", some "+1555"⟩ (.response 503 "busy") =
      fallback_routing ⟨some "CA123", some "+1555"⟩ :=
  (inbound_fallback_on_remote_failure ⟨some "CA123", some "+1555"⟩
      (.response 503 "busy") (by show (503 : Nat) ≠ 200; decide)).1

/-! ## Health aggregation (src/app.py, health_check) -/

/-- Aggregate status computed by the `/health` endpoint (app.py line 108):
`"healthy" if all(health.values()) else "degraded"` over the mapping of
service name to boolean returned by `pipeline.health_check()`. -/
def aggregate_status (services : List (String × Bool)) : String :=
  if services.all (fun p => p.2) then "healthy" else "degraded"

/-- Modelled from the spec: `core/pipeline.py` (the Pipeline Orchestrator)
is not under `src/`; per the spec, its `health_check()` returns a mapping of
stage name to boolean, querying each adapter's own liveness predicate
without making a live network call.  The per-adapter predicates themselves
are the source functions `STTService.health_check` and
`TTSService.health_check` embedded above, both pure functions of local
state. -/
def pipeline_health_check (whisper_available numpy_available
    soundfile_available model_loaded : Bool) (tts : TTSState) :
    List (String × Bool) :=
  [("stt", stt_health_check whisper_available numpy_available
      soundfile_available model_loaded),
   ("tts", (tts_health_check tts).edge_tts_available)]

/-- C8: the health endpoint reports "healthy" exactly when every per-service
boolean in the mapping is true and "degraded" otherwise; and the per-adapter
liveness predicates are computed from local state alone — the STT predicate
is exactly module availability plus a loaded model, and the TTS predicate is
exactly the breaker being enabled with its counter under the threshold. -/
theorem health_status_iff_all (services : List (String × Bool))
    (w n sf m : Bool) (tts : TTSState) :
    (aggregate_status services = "healthy" ↔ ∀ p ∈ services, p.2 = true) ∧
    (aggregate_status services = "degraded" ↔ ¬ ∀ p ∈ services, p.2 = true) ∧
    (stt_health_check w n sf m = true ↔
      (w = true ∧ n = true ∧ sf = true ∧ m = true)) ∧
    ((tts_health_check tts).edge_tts_available = true ↔
      (tts.use_edge_tts = true ∧ tts.edge_tts_failures < max_failures)) ∧
    (aggregate_status (pipeline_health_check w n sf m tts) = "healthy" ↔
      (stt_health_check w n sf m = true ∧
        (tts_health_check tts).edge_tts_available = true)) := by
  have hall : aggregate_status services = "healthy" ↔ ∀ p ∈ services, p.2 = true := by
    unfold aggregate_status
    constructor
    · intro h
      by_cases hc : services.all (fun p => p.2)
      · exact fun p hp => List.all_eq_true.mp hc p hp
      · rw [if_neg hc] at h
        exact absurd h (by decide)
    · intro h
      rw [if_pos (List.all_eq_true.mpr h)]
  refine ⟨hall, ?_, ?_, ?_, ?_⟩
  · unfold aggregate_status
    constructor
    · intro h hforall
      rw [if_pos (List.all_eq_true.mpr hforall)] at h
      exact absurd h (by decide)
    · intro h
      rw [if_neg (fun hc => h (fun p hp => List.all_eq_true.mp hc p hp))]
  · unfold stt_health_check
    cases w <;> cases n <;> cases sf <;> cases m <;> simp
  · unfold tts_health_check
    simp
  · unfold aggregate_status pipeline_health_check
    cases hs : stt_health_check w n sf m <;>
      cases ht : (tts_health_check tts).edge_tts_available <;> simp [hs, ht]

theorem health_status_iff_all_witness :
    aggregate_status [("stt", true), ("tts", false)] = "degraded" :=
  (health_status_iff_all [("stt", true), ("tts", false)] true true true true
      ⟨true, 0⟩).2.1.mpr
    (by intro h; exact absurd (h ("tts", false) (by decide)) (by decide))

/-! ## Inbound queue router (src/routers/inbound_calls.py) -/

/-- One queue's entry in the queue-status mapping (shape of
`InboundService._get_mock_queue_data`, inbound_service.py lines 155-162). -/
structure QueueInfo where
  length : Nat
  avg_wait : Nat
deriving DecidableEq, Repr

/-- `InboundService._get_mock_queue_data` (inbound_service.py
lines 155-162). -/
def mock_queue_data : List (String × QueueInfo) :=
  [("sales", ⟨2, 45⟩), ("tech", ⟨1, 30⟩), ("billing", ⟨0, 0⟩),
   ("priority", ⟨1, 15⟩)]

/-- A FastAPI `HTTPException` carrying a status code and a detail string. -/
structure HttpError where
  status : Nat
  detail : String
deriving DecidableEq, Repr

/-- `str(e)` on a starlette/FastAPI `HTTPException`:
"{status_code}: {detail}". -/
def http_exception_str (e : HttpError) : String :=
  toString e.status ++ ": " ++ e.detail

/-- The `try`-block body of `get_specific_queue` (inbound_calls.py
lines 63-67): raise `HTTPException(404)` when the queue name is not a key of
the queue-status mapping, else return its entry. -/
def get_specific_queue_body (queues : List (String × QueueInfo))
    (queue_name : String) : Except HttpError QueueInfo :=
  match queues.lookup queue_name with
  | none => .error ⟨404, "Queue not found"⟩
  | some q => .ok q

/-- `get_specific_queue` (inbound_calls.py lines 60-70): its
`except Exception` clause also catches the `HTTPException(404)` raised in
the `try` block and re-raises `HTTPException(status_code=500,
detail=str(e))`. -/
def get_specific_queue (queues : List (String × QueueInfo))
    (queue_name : String) : Except HttpError QueueInfo :=
  match get_specific_queue_body queues queue_name with
  | .ok q => .ok q
  | .error e => .error ⟨500, http_exception_str e⟩

/-- C9: for every queue name absent from the queue-status mapping, the
handler responds with HTTP 500 — not 404 — and the 500's detail is the
stringified 404 exception. -/
theorem unknown_queue_responds_500 (queues : List (String × QueueInfo))
    (queue_name : String) (h : queues.lookup queue_name = none) :
    get_specific_queue queues queue_name =
      .error ⟨500, http_exception_str ⟨404, "Queue not found"⟩⟩ ∧
    get_specific_queue queues queue_name = .error ⟨500, "404: Queue not found"⟩ := by
  have : get_specific_queue_body queues queue_name = .error ⟨404, "Queue not found"⟩ := by
    unfold get_specific_queue_body
    rw [h]
  constructor
  · unfold get_specific_queue
    rw [this]
  · unfold get_specific_queue
    rw [this]
    rfl

theorem unknown_queue_responds_500_witness :
    get_specific_queue mock_queue_data "support" =
      .error ⟨500, "404: Queue not found"⟩ :=
  (unknown_queue_responds_500 mock_queue_data "support" (by decide)).2
